import Mathlib

/-!
Verification of the WhisperingX local persistence layer
(`apps/app/src/lib/services/db/RecordingsService.svelte.dexie.ts`).

The Dexie database and its service methods are shallowly embedded:
tables become Lean lists of rows keyed by a string `id`, the Dexie
versioned-migration engine becomes a function on an explicit store
state, and every fallible operation returns a tagged result value.
ISO-8601 timestamp strings are modelled as naturals: the source only
ever compares them through IndexedDB key order, which on such strings
coincides with a total order.
-/

namespace WhisperingX

/-- An opaque raw storage-engine error (the `unknown` caught by `tryAsync`). -/
abbrev RawError := String

/-- Modelled from the spec: the tagged error built by `DbServiceErr` in
`./RecordingsService` (that file is not under `src/`); per the spec it carries
a human-readable title/description plus the underlying cause. -/
structure DbServiceError where
  title : String
  description : String
  cause : RawError
  deriving DecidableEq, Repr

/-- The `DbServiceErr` constructor: wraps a raw error into the tagged shape. -/
def DbServiceErr (title description : String) (cause : RawError) : DbServiceError :=
  { title := title, description := description, cause := cause }

/-- Modelled from the spec: the success/failure outcome type of
`@epicenterhq/result` (`Ok` data or a tagged error), as used by every store
operation. -/
inductive DbResult (α : Type) where
  | ok (data : α)
  | error (e : DbServiceError)
  deriving DecidableEq, Repr

/-- `transcriptionStatus` of a recording (v1 shape). -/
inductive TranscriptionStatus where
  | UNPROCESSED
  | TRANSCRIBING
  | DONE
  deriving DecidableEq, Repr

/-- A row of the v1 (and v3) `recordings` table: `RecordingsDbSchemaV1['recordings']`.
The binary blob payload is opaque, modelled as a natural number. -/
structure RecordingV1 where
  id : String
  title : String
  subtitle : String
  timestamp : Nat
  transcribedText : String
  blob : Option Nat
  transcriptionStatus : TranscriptionStatus
  deriving DecidableEq, Repr

/-- A row of the v2 `recordingMetadata` table: a v1 recording without `blob`. -/
structure RecordingMetadataRow where
  id : String
  title : String
  subtitle : String
  timestamp : Nat
  transcribedText : String
  transcriptionStatus : TranscriptionStatus
  deriving DecidableEq, Repr

/-- A row of the v2 `recordingBlobs` table. -/
structure RecordingBlobRow where
  id : String
  blob : Option Nat
  deriving DecidableEq, Repr

/-- `({ blob, ...recording }) => recording` in the v2 upgrade. -/
def dropBlob (r : RecordingV1) : RecordingMetadataRow :=
  { id := r.id, title := r.title, subtitle := r.subtitle, timestamp := r.timestamp,
    transcribedText := r.transcribedText, transcriptionStatus := r.transcriptionStatus }

/-- `({ id, blob }) => ({ id, blob })` in the v2 upgrade. -/
def toBlobRow (r : RecordingV1) : RecordingBlobRow :=
  { id := r.id, blob := r.blob }

/-- The v3 upgrade merge: `const blob = blobs.find((b) => b.id === record.id)?.blob;
return { ...record, blob }`. -/
def mergeRecord (blobs : List RecordingBlobRow) (m : RecordingMetadataRow) : RecordingV1 :=
  { id := m.id, title := m.title, subtitle := m.subtitle, timestamp := m.timestamp,
    transcribedText := m.transcribedText,
    blob := ((blobs.find? (fun b => b.id == m.id)).bind RecordingBlobRow.blob),
    transcriptionStatus := m.transcriptionStatus }

/-- The persisted state of the IndexedDB store during/between migrations.
A table that does not exist at the current schema version is `none`
(reading it throws); an existing table holds its list of rows. -/
structure StoreState where
  version : Nat
  recordings : Option (List RecordingV1)
  recordingMetadata : Option (List RecordingMetadataRow)
  recordingBlobs : Option (List RecordingBlobRow)
  deriving DecidableEq, Repr

/-- A row of the diagnostic dump (the dumped tables are heterogeneous). -/
inductive DumpRow where
  | recording (r : RecordingV1)
  | metadata (m : RecordingMetadataRow)
  | blobRow (b : RecordingBlobRow)
  deriving DecidableEq, Repr

/-- `DUMP_TABLE_NAMES` in `handleUpgradeError`. -/
def DUMP_TABLE_NAMES : List String := ["recordings", "recordingMetadata", "recordingBlobs"]

/-- `dumpTable`: read a table's contents; a failing read (here: a table that
does not exist) is caught and contributes an empty array. -/
def dumpTable {α : Type} (t : Option (List α)) (inj : α → DumpRow) : List DumpRow :=
  match t with
  | none => []
  | some rows => rows.map inj

/-- `dumpState`: the JSON diagnostic document (version plus name/contents pairs). -/
structure DumpState where
  version : Nat
  tables : List (String × List DumpRow)
  deriving DecidableEq, Repr

/-- Everything `handleUpgradeError` does before control leaves it: the captured
dump, the fact that the blocking recovery dialog was opened
(`moreDetailsDialog.open`), and the re-raised original error (`throw error`). -/
structure UpgradeFailure where
  dump : DumpState
  dialogShown : Bool
  rethrown : RawError
  deriving DecidableEq, Repr

/-- `handleUpgradeError({ tx, version, error })`: dump the three tables
(failed reads contribute `[]`), open the recovery dialog, re-raise `error`. -/
def handleUpgradeError (tx : StoreState) (version : Nat) (error : RawError) : UpgradeFailure :=
  { dump :=
      { version := version,
        tables :=
          [("recordings", dumpTable tx.recordings DumpRow.recording),
           ("recordingMetadata", dumpTable tx.recordingMetadata DumpRow.metadata),
           ("recordingBlobs", dumpTable tx.recordingBlobs DumpRow.blobRow)] },
    dialogShown := true,
    rethrown := error }

/-- The transaction-visible state while the `version(2)` upgrade runs: the new
`recordingMetadata`/`recordingBlobs` tables exist (empty) and the `recordings`
table being dropped is still readable. -/
def v2UpgradeTx (s : StoreState) : StoreState :=
  { version := 2, recordings := s.recordings,
    recordingMetadata := some [], recordingBlobs := some [] }

/-- The transaction-visible state while the `version(3)` upgrade runs. -/
def v3UpgradeTx (s : StoreState) : StoreState :=
  { version := 3, recordings := some [],
    recordingMetadata := s.recordingMetadata, recordingBlobs := s.recordingBlobs }

/-- The `version(2)` upgrade: split `recordings` into `recordingMetadata` and
`recordingBlobs`, dropping `recordings`. A `fault` models the upgrade body
throwing; the catch block forwards to `handleUpgradeError`, which re-raises. -/
def upgradeToV2 (fault : Option RawError) (s : StoreState) : Except UpgradeFailure StoreState :=
  match fault with
  | some e => .error (handleUpgradeError (v2UpgradeTx s) 2 e)
  | none =>
    let oldRecordings := s.recordings.getD []
    let metadata := oldRecordings.map dropBlob
    let blobs := oldRecordings.map toBlobRow
    .ok { version := 2, recordings := none,
          recordingMetadata := some metadata, recordingBlobs := some blobs }

/-- The `version(3)` upgrade: merge `recordingMetadata` and `recordingBlobs`
back into a single `recordings` table, dropping the two v2 tables. -/
def upgradeToV3 (fault : Option RawError) (s : StoreState) : Except UpgradeFailure StoreState :=
  match fault with
  | some e => .error (handleUpgradeError (v3UpgradeTx s) 3 e)
  | none =>
    let metadata := s.recordingMetadata.getD []
    let blobs := s.recordingBlobs.getD []
    let merged := metadata.map (mergeRecord blobs)
    .ok { version := 3, recordings := some merged,
          recordingMetadata := none, recordingBlobs := none }

/-- Fault injection points for the two declared upgrade bodies. -/
structure MigrationFaults where
  v2 : Option RawError
  v3 : Option RawError
  deriving DecidableEq, Repr

/-- No fault injected anywhere. -/
def noFaults : MigrationFaults := { v2 := none, v3 := none }

/-- `DB_VERSION` as declared at the top of the source file. -/
def DB_VERSION : Nat := 4

/-- The schema versions actually registered in the `RecordingsDatabase`
constructor: `this.version(1)`, `this.version(2)`, `this.version(3)`. -/
def declaredVersions : List Nat := [1, 2, 3]

/-- Apply every declared upgrade above the persisted version, in strictly
increasing order (Dexie runs them inside one `versionchange` transaction). -/
def runUpgrades (faults : MigrationFaults) (s : StoreState) : Except UpgradeFailure StoreState :=
  match (if s.version < 2 then upgradeToV2 faults.v2 s else Except.ok s) with
  | Except.error f => Except.error f
  | Except.ok s2 =>
    match (if s2.version < 3 then upgradeToV3 faults.v3 s2 else Except.ok s2) with
    | Except.error f => Except.error f
    | Except.ok s3 => Except.ok s3

/-- Opening the store: run the pending upgrades; if any upgrade throws, the
whole `versionchange` transaction aborts and IndexedDB rolls the store back
to its pre-open state, version included. -/
def openStore (faults : MigrationFaults) (s : StoreState) :
    StoreState × Option UpgradeFailure :=
  match runUpgrades faults s with
  | .ok s2 => (s2, none)
  | .error f => (s, some f)

/-- A concrete v1 recording row. -/
def sampleV1Row : RecordingV1 :=
  { id := "r1", title := "Morning note", subtitle := "draft",
    timestamp := 1700000000, transcribedText := "hello world",
    blob := some 42, transcriptionStatus := TranscriptionStatus.DONE }

/-- A store persisted under schema v1 holding one recording. -/
def sampleV1Store : StoreState :=
  { version := 1, recordings := some [sampleV1Row],
    recordingMetadata := none, recordingBlobs := none }

/-- A store persisted under schema v2 (split tables). -/
def sampleV2Store : StoreState :=
  { version := 2, recordings := none,
    recordingMetadata := some [dropBlob sampleV1Row],
    recordingBlobs := some [toBlobRow sampleV1Row] }

/-- The discriminant of a transformation. -/
inductive TransformationType where
  | find_replace
  | prompt_transform
  deriving DecidableEq, Repr

/-- A row of the v4 `recordings` table (`RecordingsDbSchemaV4['recordings']`):
a v3 recording with `timestamp` replaced by `createdAt`/`updatedAt`. -/
structure Recording where
  id : String
  title : String
  subtitle : String
  transcribedText : String
  blob : Option Nat
  transcriptionStatus : TranscriptionStatus
  createdAt : Nat
  updatedAt : Nat
  deriving DecidableEq, Repr

/-- A row of the `transformations` table. The flattened kind-specific fields
(`find_replace.findText` etc.) use underscores for the dots. -/
structure Transformation where
  id : String
  name : String
  description : String
  createdAt : Nat
  updatedAt : Nat
  type : TransformationType
  find_replace_findText : String
  find_replace_replaceText : String
  find_replace_useRegex : Bool
  prompt_transform_model : String
  prompt_transform_systemPromptTemplate : String
  prompt_transform_userPromptTemplate : String
  deriving DecidableEq, Repr

/-- One `{ transformationId, enabled }` entry of a pipeline's ordered sequence. -/
structure PipelineTransformationRef where
  transformationId : String
  enabled : Bool
  deriving DecidableEq, Repr

/-- A row of the `pipelines` table. -/
structure Pipeline where
  id : String
  title : String
  description : String
  createdAt : Nat
  updatedAt : Nat
  transformations : List PipelineTransformationRef
  deriving DecidableEq, Repr

/-- The status of a pipeline run or of a transformation result. -/
inductive RunStatus where
  | running
  | completed
  | failed
  deriving DecidableEq, Repr

/-- A row of the `pipelineRuns` table. -/
structure PipelineRun where
  id : String
  pipelineId : String
  recordingId : String
  input : String
  status : RunStatus
  startedAt : Nat
  completedAt : Option Nat
  error : Option String
  output : Option String
  deriving DecidableEq, Repr

/-- A row of the `transformationResults` table. -/
structure TransformationResult where
  id : String
  pipelineRunId : String
  transformationId : String
  status : RunStatus
  startedAt : Nat
  completedAt : Option Nat
  error : Option String
  output : Option String
  deriving DecidableEq, Repr

/-- The five tables of the store at the service's schema. -/
structure Db where
  recordings : List Recording
  pipelines : List Pipeline
  transformations : List Transformation
  pipelineRuns : List PipelineRun
  transformationResults : List TransformationResult
  deriving DecidableEq, Repr

/-- The service closure's state: the store plus the in-memory reactive
mirror `let recordings = $state<Recording[]>([])` of the recordings table. -/
structure ServiceState where
  db : Db
  recordings : List Recording
  deriving DecidableEq, Repr

/-- Does the table hold a row with this primary key? -/
def tableHasId {α : Type} (idOf : α → String) (rows : List α) (i : String) : Bool :=
  rows.any (fun r => idOf r == i)

/-- Dexie `Table.add`: insert, failing with a ConstraintError when the
primary key already exists (`none` models the throw). -/
def tableAdd {α : Type} (idOf : α → String) (rows : List α) (x : α) : Option (List α) :=
  if tableHasId idOf rows (idOf x) then none else some (rows ++ [x])

/-- Dexie `Table.put`: full replace by primary key, inserting when absent. -/
def tablePut {α : Type} (idOf : α → String) (rows : List α) (x : α) : List α :=
  if tableHasId idOf rows (idOf x) then
    rows.map (fun r => if idOf r == idOf x then x else r)
  else rows ++ [x]

/-- Dexie `Table.delete`: remove the row with this primary key. -/
def tableDelete {α : Type} (idOf : α → String) (rows : List α) (i : String) : List α :=
  rows.filter (fun r => !(idOf r == i))

/-- Dexie `Table.bulkDelete`: remove every row whose primary key is listed. -/
def tableBulkDelete {α : Type} (idOf : α → String) (rows : List α) (ids : List String) :
    List α :=
  rows.filter (fun r => !(ids.contains (idOf r)))

/-- `getRecording(id)`: `db.recordings.get(id)`, `undefined` mapped to `null`
(an explicit not-found success outcome). -/
def getRecording (s : ServiceState) (i : String) : DbResult (Option Recording) :=
  DbResult.ok (s.db.recordings.find? (fun r => r.id == i))

/-- `addRecording`: `db.recordings.add(recording)`; on success the mirror is
extended with a push. A `fault` models the storage engine throwing, mapped by
`tryAsync` to the tagged error; a duplicate key raises a ConstraintError. -/
def addRecording (fault : Option RawError) (s : ServiceState) (r : Recording) :
    DbResult Unit × ServiceState :=
  match fault with
  | some e =>
    (DbResult.error (DbServiceErr "Error adding recording to Dexie" "Please try again" e), s)
  | none =>
    match tableAdd Recording.id s.db.recordings r with
    | none =>
      (DbResult.error
        (DbServiceErr "Error adding recording to Dexie" "Please try again" "ConstraintError"), s)
    | some rows =>
      (DbResult.ok (),
       { db := { s.db with recordings := rows }, recordings := s.recordings ++ [r] })

/-- `updateRecording`: `db.recordings.put(recording)`; on success the mirror is
rebuilt with `recordings.map((r) => r.id === recording.id ? recording : r)`. -/
def updateRecording (fault : Option RawError) (s : ServiceState) (r : Recording) :
    DbResult Unit × ServiceState :=
  match fault with
  | some e =>
    (DbResult.error (DbServiceErr "Error updating recording in Dexie" "Please try again" e), s)
  | none =>
    (DbResult.ok (),
     { db := { s.db with recordings := tablePut Recording.id s.db.recordings r },
       recordings := s.recordings.map (fun x => if x.id == r.id then r else x) })

/-- `deleteRecording`: `db.recordings.delete(recording.id)`; on success the
mirror is rebuilt with `recordings.filter((r) => r.id !== recording.id)`. -/
def deleteRecording (fault : Option RawError) (s : ServiceState) (r : Recording) :
    DbResult Unit × ServiceState :=
  match fault with
  | some e =>
    (DbResult.error (DbServiceErr "Error deleting recording from Dexie" "Please try again" e), s)
  | none =>
    (DbResult.ok (),
     { db := { s.db with recordings := tableDelete Recording.id s.db.recordings r.id },
       recordings := s.recordings.filter (fun x => !(x.id == r.id)) })

/-- `deleteRecordings`: `db.recordings.bulkDelete(ids)`. The source returns the
`tryAsync` outcome directly and never touches the reactive mirror. -/
def deleteRecordings (fault : Option RawError) (s : ServiceState)
    (recordingsToDelete : List Recording) : DbResult Unit × ServiceState :=
  let ids := recordingsToDelete.map Recording.id
  match fault with
  | some e =>
    (DbResult.error (DbServiceErr "Error deleting recordings from Dexie" "Please try again" e), s)
  | none =>
    (DbResult.ok (),
     { s with db := { s.db with recordings := tableBulkDelete Recording.id s.db.recordings ids } })

/-- `updatePipeline`: `db.pipelines.put(pipeline)`. -/
def updatePipeline (fault : Option RawError) (db : Db) (p : Pipeline) : DbResult Unit × Db :=
  match fault with
  | some e =>
    (DbResult.error (DbServiceErr "Error updating pipeline in Dexie" "Please try again" e), db)
  | none => (DbResult.ok (), { db with pipelines := tablePut Pipeline.id db.pipelines p })

/-- `deletePipelineWithAssociatedTransformations`: inside one `rw` transaction
over exactly `[db.pipelines, db.transformations]`, delete the pipeline row and
then bulk-delete every transformation it references. `faultBetween` injects a
throw between the two deletes; the transaction then aborts, IndexedDB rolls
both tables back, and `tryAsync` maps the error to the tagged failure. -/
def deletePipelineWithAssociatedTransformations (faultBetween : Option RawError) (db : Db)
    (p : Pipeline) : DbResult Unit × Db :=
  let afterPipelineDelete := { db with pipelines := tableDelete Pipeline.id db.pipelines p.id }
  match faultBetween with
  | some e =>
    (DbResult.error (DbServiceErr "Error deleting pipeline from Dexie" "Please try again" e), db)
  | none =>
    let transformationIds := p.transformations.map PipelineTransformationRef.transformationId
    (DbResult.ok (),
     { afterPipelineDelete with
       transformations :=
         tableBulkDelete Transformation.id afterPipelineDelete.transformations
           transformationIds })

/-- `updateTransformation`: `db.transformations.put(transformation)`. -/
def updateTransformation (fault : Option RawError) (db : Db) (t : Transformation) :
    DbResult Unit × Db :=
  match fault with
  | some e =>
    (DbResult.error (DbServiceErr "Error updating transformation in Dexie" "Please try again" e),
     db)
  | none =>
    (DbResult.ok (), { db with transformations := tablePut Transformation.id db.transformations t })

/-- The `newPipelineRun` object literal built by `startPipelineRun`:
`id` from `nanoid()`, `startedAt` from `new Date().toISOString()`. -/
def newPipelineRun (generatedId : String) (now : Nat) (p : Pipeline) (rec : Recording) :
    PipelineRun :=
  { id := generatedId, pipelineId := p.id, recordingId := rec.id,
    input := rec.transcribedText, status := RunStatus.running, startedAt := now,
    completedAt := none, error := none, output := none }

/-- `startPipelineRun(pipeline, recording)`: add the freshly built run to
`db.pipelineRuns`. -/
def startPipelineRun (fault : Option RawError) (generatedId : String) (now : Nat) (db : Db)
    (p : Pipeline) (rec : Recording) : DbResult Unit × Db :=
  match fault with
  | some e =>
    (DbResult.error (DbServiceErr "Error starting pipeline run in Dexie" "Please try again" e), db)
  | none =>
    match tableAdd PipelineRun.id db.pipelineRuns (newPipelineRun generatedId now p rec) with
    | none =>
      (DbResult.error
        (DbServiceErr "Error starting pipeline run in Dexie" "Please try again"
          "ConstraintError"), db)
    | some rows => (DbResult.ok (), { db with pipelineRuns := rows })

/-- `updatePipelineRun`: `db.pipelineRuns.put(pipelineRun)`. -/
def updatePipelineRun (fault : Option RawError) (db : Db) (pr : PipelineRun) :
    DbResult Unit × Db :=
  match fault with
  | some e =>
    (DbResult.error (DbServiceErr "Error updating pipeline run in Dexie" "Please try again" e), db)
  | none => (DbResult.ok (), { db with pipelineRuns := tablePut PipelineRun.id db.pipelineRuns pr })

/-- Most-recent-first order on pipeline runs: Dexie's
`.reverse().sortBy(x)` sorts descending by the sort key. -/
def startedAtGe (a b : PipelineRun) : Prop := b.startedAt ≤ a.startedAt

instance : DecidableRel startedAtGe := fun a b => Nat.decLe b.startedAt a.startedAt

instance : IsTotal PipelineRun startedAtGe := ⟨fun a b => (Nat.le_total b.startedAt a.startedAt)⟩

instance : IsTrans PipelineRun startedAtGe := ⟨fun _ _ _ h1 h2 => Nat.le_trans h2 h1⟩

/-- `getPipelineRunsByRecording(recording)`:
`db.pipelineRuns.where('recordingId').equals(recording.id).reverse().sortBy('startedAt')`. -/
def getPipelineRunsByRecording (db : Db) (rec : Recording) : DbResult (List PipelineRun) :=
  DbResult.ok
    (List.insertionSort startedAtGe (db.pipelineRuns.filter (fun p => p.recordingId == rec.id)))

/-- Ascending creation-time order on recordings (the `createdAt` index order
used by `orderBy('createdAt')`). -/
def createdAtLe (a b : Recording) : Prop := a.createdAt ≤ b.createdAt

instance : DecidableRel createdAtLe := fun a b => Nat.decLe a.createdAt b.createdAt

instance : IsTotal Recording createdAtLe := ⟨fun a b => (Nat.le_total a.createdAt b.createdAt)⟩

instance : IsTrans Recording createdAtLe := ⟨fun _ _ _ h1 h2 => Nat.le_trans h1 h2⟩

/-- The retention strategy selector (`'keep-forever' | 'limit-count'`). -/
inductive RecordingRetentionStrategy where
  | keepForever
  | limitCount
  deriving DecidableEq, Repr

/-- The settings slice `cleanupExpiredRecordings` destructures. The source
stores `maxRecordingCount` as a string and applies `Number.parseInt`; the
parsed value is modelled directly. -/
structure Settings where
  recordingRetentionStrategy : RecordingRetentionStrategy
  maxRecordingCount : Nat
  deriving DecidableEq, Repr

/-- `cleanupExpiredRecordings(settings)`: `keep-forever` is a no-op;
`limit-count` counts the recordings, returns when `count === 0` or
`count <= maxCount`, and otherwise bulk-deletes the primary keys of the first
`count - maxCount` rows in ascending `createdAt` order. -/
def cleanupExpiredRecordings (settings : Settings) (db : Db) : DbResult Unit × Db :=
  match settings.recordingRetentionStrategy with
  | RecordingRetentionStrategy.keepForever => (DbResult.ok (), db)
  | RecordingRetentionStrategy.limitCount =>
    let count := db.recordings.length
    if count = 0 then (DbResult.ok (), db)
    else
      let maxCount := settings.maxRecordingCount
      if count ≤ maxCount then (DbResult.ok (), db)
      else
        let idsToDelete :=
          ((List.insertionSort createdAtLe db.recordings).take (count - maxCount)).map
            Recording.id
        (DbResult.ok (),
         { db with recordings := tableBulkDelete Recording.id db.recordings idsToDelete })

/-- The store produced by the deleting branch of `limit-count` cleanup:
the recordings whose ids are among the first `count - maxCount` of the
ascending `createdAt` order are bulk-deleted. -/
def limitCountDelete (n : Nat) (db : Db) : Db :=
  { db with
    recordings :=
      tableBulkDelete Recording.id db.recordings
        (((List.insertionSort createdAtLe db.recordings).take
            (db.recordings.length - n)).map Recording.id) }

/-- `keep-forever` settings at a given maximum count. -/
def keepForeverSettings (n : Nat) : Settings :=
  { recordingRetentionStrategy := RecordingRetentionStrategy.keepForever,
    maxRecordingCount := n }

/-- `limit-count` settings at a given maximum count. -/
def limitCountSettings (n : Nat) : Settings :=
  { recordingRetentionStrategy := RecordingRetentionStrategy.limitCount,
    maxRecordingCount := n }

/-- A v4 recording with the given id and creation time. -/
def mkRecording (i : String) (c : Nat) : Recording :=
  { id := i, title := "note", subtitle := "", transcribedText := "some text",
    blob := none, transcriptionStatus := TranscriptionStatus.DONE,
    createdAt := c, updatedAt := c }

/-- Concrete recordings with distinct ids and creation times. -/
def recA : Recording := mkRecording "a" 30

/-- See `recA`. -/
def recB : Recording := mkRecording "b" 10

/-- See `recA`. -/
def recC : Recording := mkRecording "c" 20

/-- A find/replace transformation with the given id. -/
def mkTransformation (i : String) : Transformation :=
  { id := i, name := "strip filler", description := "", createdAt := 0, updatedAt := 0,
    type := TransformationType.find_replace,
    find_replace_findText := "um", find_replace_replaceText := "",
    find_replace_useRegex := false,
    prompt_transform_model := "", prompt_transform_systemPromptTemplate := "",
    prompt_transform_userPromptTemplate := "" }

/-- A pipeline referencing transformations t1 (enabled) and t2 (disabled). -/
def samplePipeline : Pipeline :=
  { id := "p1", title := "cleanup", description := "", createdAt := 0, updatedAt := 0,
    transformations :=
      [{ transformationId := "t1", enabled := true },
       { transformationId := "t2", enabled := false }] }

/-- A second pipeline referencing nothing. -/
def otherPipeline : Pipeline :=
  { id := "p2", title := "other", description := "", createdAt := 0, updatedAt := 0,
    transformations := [] }

/-- A store with all five tables empty. -/
def emptyDb : Db :=
  { recordings := [], pipelines := [], transformations := [], pipelineRuns := [],
    transformationResults := [] }

/-- A populated store: three recordings, two pipelines, three transformations. -/
def sampleDb : Db :=
  { recordings := [recA, recB, recC],
    pipelines := [samplePipeline, otherPipeline],
    transformations := [mkTransformation "t1", mkTransformation "t2", mkTransformation "t3"],
    pipelineRuns := [], transformationResults := [] }

/-- A store holding a single recording. -/
def smallDb : Db := { emptyDb with recordings := [recB] }

/-- A service state whose reactive mirror agrees with the store. -/
def mirroredService : ServiceState :=
  { db := { emptyDb with recordings := [recA] }, recordings := [recA] }

/-- A service state holding one recording, mirror in sync, used to exhibit
the bulk-delete staleness. -/
def staleService : ServiceState :=
  { db := smallDb, recordings := [recB] }

/-- Claim C1: the spec states that opening a store persisted under schema v1
applies every declared migration up to the target version v4, after which
`timestamp` is absent and `createdAt`/`updatedAt` are present. The code
declares `DB_VERSION = 4`, the `RecordingsDbSchemaV4` row type, and the five
v4 table accessors, but never registers a `version(4)` migration: opening a
v1 store runs only the v2 and v3 upgrades and ends at version 3, with every
row still carrying its v1 `timestamp` and no `createdAt`/`updatedAt`. -/
theorem C1_no_v4_migration_registered :
    DB_VERSION = 4 ∧
    DB_VERSION ∉ declaredVersions ∧
    openStore noFaults sampleV1Store =
      ({ version := 3, recordings := some [sampleV1Row],
         recordingMetadata := none, recordingBlobs := none }, none) ∧
    ((openStore noFaults sampleV1Store).1.recordings.getD []).map RecordingV1.timestamp =
      [1700000000] := by
  refine ⟨rfl, by decide, by decide, by decide⟩

/-- Claim C2: when a migration step throws (v1→v2 fault, or v2→v3 fault), the
handler captures the diagnostic dump of the three dump tables, opens the
recovery dialog, and re-raises the original error; the enclosing
`versionchange` transaction then rolls the store back, so the persisted state
(version included) is exactly the pre-migration state. -/
theorem C2_migration_failure_rolls_back (s1 s2 : StoreState) (e1 e2 e3 : RawError)
    (h1 : s1.version = 1) (h2 : s2.version = 2) :
    openStore { v2 := some e1, v3 := none } s1 =
      (s1, some (handleUpgradeError (v2UpgradeTx s1) 2 e1)) ∧
    (handleUpgradeError (v2UpgradeTx s1) 2 e1).rethrown = e1 ∧
    (handleUpgradeError (v2UpgradeTx s1) 2 e1).dialogShown = true ∧
    (handleUpgradeError (v2UpgradeTx s1) 2 e1).dump.tables =
      [("recordings", dumpTable s1.recordings DumpRow.recording),
       ("recordingMetadata", []), ("recordingBlobs", [])] ∧
    openStore { v2 := none, v3 := some e2 } s2 =
      (s2, some (handleUpgradeError (v3UpgradeTx s2) 3 e2)) ∧
    (handleUpgradeError (v3UpgradeTx s2) 3 e2).rethrown = e2 ∧
    (openStore { v2 := none, v3 := some e2 } s2).1.version = 2 ∧
    (openStore { v2 := none, v3 := some e3 } s1).1 = s1 := by
  refine ⟨?_, rfl, rfl, ?_, ?_, rfl, ?_, ?_⟩
  · simp [openStore, runUpgrades, upgradeToV2, h1]
  · simp [handleUpgradeError, v2UpgradeTx, dumpTable]
  · simp [openStore, runUpgrades, upgradeToV3, h2]
  · simp [openStore, runUpgrades, upgradeToV3, h2]
  · simp [openStore, runUpgrades, upgradeToV2, upgradeToV3, h1]

/-- Witness for C2: concrete v1 and v2 stores with injected upgrade faults
are returned unchanged (rolled back). -/
theorem C2_migration_failure_rolls_back_witness :
    (openStore { v2 := some "boom", v3 := none } sampleV1Store).1 = sampleV1Store ∧
    (openStore { v2 := none, v3 := some "crash" } sampleV2Store).1 = sampleV2Store := by
  have h :=
    C2_migration_failure_rolls_back sampleV1Store sampleV2Store "boom" "crash" "late" rfl rfl
  refine ⟨?_, ?_⟩
  · rw [h.1]
  · rw [h.2.2.2.2.1]

/-- Claim C10: `handleUpgradeError` always produces a dump with one entry per
dumped table name, a table whose read fails (here: a table absent from the
transaction state) contributing an empty array rather than aborting the dump,
and it always re-raises the original migration error, never one arising from
the dump itself. -/
theorem C10_dump_total_and_rethrows_original (tx : StoreState) (v : Nat) (e : RawError) :
    (handleUpgradeError tx v e).rethrown = e ∧
    (handleUpgradeError tx v e).dialogShown = true ∧
    (handleUpgradeError tx v e).dump.version = v ∧
    (handleUpgradeError tx v e).dump.tables.map Prod.fst = DUMP_TABLE_NAMES ∧
    (handleUpgradeError { tx with recordings := none } v e).dump.tables =
      [("recordings", []),
       ("recordingMetadata", dumpTable tx.recordingMetadata DumpRow.metadata),
       ("recordingBlobs", dumpTable tx.recordingBlobs DumpRow.blobRow)] ∧
    (handleUpgradeError
        { version := v, recordings := none, recordingMetadata := none,
          recordingBlobs := none } v e).dump.tables =
      [("recordings", []), ("recordingMetadata", []), ("recordingBlobs", [])] ∧
    (handleUpgradeError
        { version := v, recordings := none, recordingMetadata := none,
          recordingBlobs := none } v e).rethrown = e := by
  simp [handleUpgradeError, dumpTable, DUMP_TABLE_NAMES]

/-- The rows surviving a filter all satisfy the filter predicate. -/
theorem all_filter_self {α : Type} (p : α → Bool) (l : List α) :
    (l.filter p).all p = true := by
  rw [List.all_eq_true]
  intro x hx
  exact (List.mem_filter.mp hx).2

/-- Claim C4: `deletePipelineWithAssociatedTransformations` removes the
pipeline row and every transformation it references inside one transaction
over exactly the `pipelines` and `transformations` tables; a fault injected
between the two deletes aborts the transaction, leaving both tables (and the
whole store) unchanged and returning the tagged failure instead of throwing. -/
theorem C4_cascade_delete_atomic (db : Db) (p : Pipeline) (e : RawError) :
    deletePipelineWithAssociatedTransformations (some e) db p =
      (DbResult.error (DbServiceErr "Error deleting pipeline from Dexie" "Please try again" e),
       db) ∧
    (deletePipelineWithAssociatedTransformations none db p).1 = DbResult.ok () ∧
    (deletePipelineWithAssociatedTransformations none db p).2.pipelines =
      db.pipelines.filter (fun q => !(q.id == p.id)) ∧
    (deletePipelineWithAssociatedTransformations none db p).2.transformations =
      db.transformations.filter
        (fun t =>
          !((p.transformations.map PipelineTransformationRef.transformationId).contains t.id)) ∧
    ((deletePipelineWithAssociatedTransformations none db p).2.pipelines.all
        (fun q => !(q.id == p.id))) = true ∧
    ((deletePipelineWithAssociatedTransformations none db p).2.transformations.all
        (fun t =>
          !((p.transformations.map PipelineTransformationRef.transformationId).contains
              t.id))) = true ∧
    (deletePipelineWithAssociatedTransformations none db p).2.recordings = db.recordings ∧
    (deletePipelineWithAssociatedTransformations none db p).2.pipelineRuns =
      db.pipelineRuns ∧
    (deletePipelineWithAssociatedTransformations none db p).2.transformationResults =
      db.transformationResults := by
  refine ⟨rfl, rfl, rfl, rfl, ?_, ?_, rfl, rfl, rfl⟩
  · exact all_filter_self _ db.pipelines
  · exact all_filter_self _ db.transformations

/-- Counterexample to claim C5 as stated: `deleteRecordings` (bulk delete)
returns a success outcome but never updates the reactive mirror, so after a
successful bulk delete the mirror differs from the recordings table. -/
theorem C5_counterexample_bulk_delete_leaves_mirror_stale :
    (deleteRecordings none staleService [recB]).1 = DbResult.ok () ∧
    (deleteRecordings none staleService [recB]).2.db.recordings = [] ∧
    (deleteRecordings none staleService [recB]).2.recordings = [recB] ∧
    (deleteRecordings none staleService [recB]).2.recordings ≠
      (deleteRecordings none staleService [recB]).2.db.recordings := by
  refine ⟨by decide, by decide, by decide, by decide⟩

/-- Claim C5 (amended): after a successful `addRecording`, a successful
`updateRecording` whose id is already present, or a successful
`deleteRecording`, the reactive mirror again equals the recordings table
(updated synchronously from the operation's known result); `deleteRecordings`
(bulk delete) leaves the mirror untouched, and `updateRecording` with an
absent id inserts a table row the mirror never receives. -/
theorem C5_mirror_synchronized (s : ServiceState) (f : Option RawError) (r : Recording)
    (rs : List Recording) (hsync : s.recordings = s.db.recordings) :
    (∀ out s2, addRecording f s r = (out, s2) → out = DbResult.ok () →
      s2.recordings = s2.db.recordings) ∧
    (∀ out s2, tableHasId Recording.id s.db.recordings r.id = true →
      updateRecording f s r = (out, s2) → out = DbResult.ok () →
      s2.recordings = s2.db.recordings) ∧
    (∀ out s2, deleteRecording f s r = (out, s2) → out = DbResult.ok () →
      s2.recordings = s2.db.recordings) ∧
    (deleteRecordings f s rs).2.recordings = s.recordings := by
  refine ⟨?_, ?_, ?_, ?_⟩
  · intro out s2 hrun hok
    cases f with
    | some e =>
      rw [addRecording] at hrun
      cases hrun
      cases hok
    | none =>
      rw [addRecording] at hrun
      rcases hadd : tableAdd Recording.id s.db.recordings r with _ | rows
      · rw [hadd] at hrun; cases hrun; cases hok
      · rw [hadd] at hrun
        cases hrun
        rw [tableAdd] at hadd
        by_cases hk : tableHasId Recording.id s.db.recordings r.id = true
        · rw [if_pos hk] at hadd; cases hadd
        · rw [if_neg hk] at hadd
          cases hadd
          simp [hsync]
  · intro out s2 hk hrun hok
    cases f with
    | some e => rw [updateRecording] at hrun; cases hrun; cases hok
    | none =>
      rw [updateRecording] at hrun
      cases hrun
      simp [tablePut, hk, hsync]
  · intro out s2 hrun hok
    cases f with
    | some e => rw [deleteRecording] at hrun; cases hrun; cases hok
    | none =>
      rw [deleteRecording] at hrun
      cases hrun
      simp [tableDelete, hsync]
  · cases f with
    | some e => rfl
    | none => rfl

/-- Witness for C5: concrete single delete after which the mirror equals the
table, from a store holding one recording with the mirror in sync. -/
theorem C5_mirror_synchronized_witness :
    (deleteRecording none mirroredService recA).2.recordings =
      (deleteRecording none mirroredService recA).2.db.recordings :=
  (C5_mirror_synchronized mirroredService none recA [] rfl).2.2.1 _ _ rfl rfl

/-- Claim C7: `startPipelineRun` inserts exactly one new run, in `running`
status, with the generated id, the current timestamp as `startedAt`, the
recording's transcribed text as `input`, and `completedAt`/`error`/`output`
all absent; the rest of the store is untouched. -/
theorem C7_start_pipeline_run_inserts_one_running (db : Db) (p : Pipeline) (rec : Recording)
    (generatedId : String) (now : Nat)
    (hfresh : tableHasId PipelineRun.id db.pipelineRuns generatedId = false) :
    (startPipelineRun none generatedId now db p rec).1 = DbResult.ok () ∧
    (startPipelineRun none generatedId now db p rec).2.pipelineRuns =
      db.pipelineRuns ++ [newPipelineRun generatedId now p rec] ∧
    (newPipelineRun generatedId now p rec).id = generatedId ∧
    (newPipelineRun generatedId now p rec).pipelineId = p.id ∧
    (newPipelineRun generatedId now p rec).recordingId = rec.id ∧
    (newPipelineRun generatedId now p rec).status = RunStatus.running ∧
    (newPipelineRun generatedId now p rec).startedAt = now ∧
    (newPipelineRun generatedId now p rec).input = rec.transcribedText ∧
    (newPipelineRun generatedId now p rec).completedAt = none ∧
    (newPipelineRun generatedId now p rec).error = none ∧
    (newPipelineRun generatedId now p rec).output = none ∧
    (startPipelineRun none generatedId now db p rec).2.recordings = db.recordings ∧
    (startPipelineRun none generatedId now db p rec).2.pipelines = db.pipelines ∧
    (startPipelineRun none generatedId now db p rec).2.transformations =
      db.transformations := by
  have hid : (newPipelineRun generatedId now p rec).id = generatedId := rfl
  have hrun : startPipelineRun none generatedId now db p rec =
      (DbResult.ok (),
       { db with pipelineRuns := db.pipelineRuns ++ [newPipelineRun generatedId now p rec] }) := by
    rw [startPipelineRun, tableAdd, hid, hfresh]
    simp
  rw [hrun]
  exact ⟨rfl, rfl, rfl, rfl, rfl, rfl, rfl, rfl, rfl, rfl, rfl, rfl, rfl, rfl⟩

/-- Witness for C7 at a concrete empty store. -/
theorem C7_start_pipeline_run_witness :
    (startPipelineRun none "run1" 100 emptyDb samplePipeline recA).1 = DbResult.ok () ∧
    (startPipelineRun none "run1" 100 emptyDb samplePipeline recA).2.pipelineRuns =
      [newPipelineRun "run1" 100 samplePipeline recA] := by
  have h :=
    C7_start_pipeline_run_inserts_one_running emptyDb samplePipeline recA "run1" 100 (by decide)
  exact ⟨h.1, h.2.1⟩

/-- Claim C8: after a successful `deleteRecording`, fetching the same id gives
a success outcome carrying the explicit not-found value `null`, which as a
value of the outcome type is distinct from every transport-error failure. -/
theorem C8_delete_then_get_not_found (f : Option RawError) (s : ServiceState) (r : Recording)
    (h : (deleteRecording f s r).1 = DbResult.ok ()) :
    getRecording (deleteRecording f s r).2 r.id = DbResult.ok none ∧
    ∀ e : DbServiceError,
      (DbResult.ok (none : Option Recording)) ≠ DbResult.error e := by
  constructor
  · cases f with
    | some e => rw [deleteRecording] at h; cases h
    | none =>
      have hdb : (deleteRecording none s r).2.db.recordings =
          List.filter (fun x => !(x.id == r.id)) s.db.recordings := rfl
      have hfind : List.find? (fun x => x.id == r.id)
          (List.filter (fun x => !(x.id == r.id)) s.db.recordings) = none := by
        rw [List.find?_eq_none]
        intro x hx
        have hkeep := (List.mem_filter.mp hx).2
        simp only [Bool.not_eq_eq_eq_not, Bool.not_true] at hkeep
        simp [hkeep]
      rw [getRecording, hdb, hfind]
  · intro e hcontra
    cases hcontra

/-- Witness for C8 at a concrete store holding the deleted recording. -/
theorem C8_delete_then_get_witness :
    getRecording (deleteRecording none mirroredService recA).2 recA.id = DbResult.ok none :=
  (C8_delete_then_get_not_found none mirroredService recA (by decide)).1

/-- Claim C9: the update operations are upserts (`put`, full replace by id):
called with an id absent from the respective table, each returns a success
outcome and inserts the row, for recordings, pipelines, transformations and
pipeline runs alike. -/
theorem C9_update_operations_are_upserts (s : ServiceState) (db : Db) (r : Recording)
    (p : Pipeline) (t : Transformation) (pr : PipelineRun)
    (h1 : tableHasId Recording.id s.db.recordings r.id = false)
    (h2 : tableHasId Pipeline.id db.pipelines p.id = false)
    (h3 : tableHasId Transformation.id db.transformations t.id = false)
    (h4 : tableHasId PipelineRun.id db.pipelineRuns pr.id = false) :
    (updateRecording none s r).1 = DbResult.ok () ∧
    (updateRecording none s r).2.db.recordings = s.db.recordings ++ [r] ∧
    updatePipeline none db p =
      (DbResult.ok (), { db with pipelines := db.pipelines ++ [p] }) ∧
    updateTransformation none db t =
      (DbResult.ok (), { db with transformations := db.transformations ++ [t] }) ∧
    updatePipelineRun none db pr =
      (DbResult.ok (), { db with pipelineRuns := db.pipelineRuns ++ [pr] }) := by
  refine ⟨rfl, ?_, ?_, ?_, ?_⟩
  · simp [updateRecording, tablePut, h1]
  · simp [updatePipeline, tablePut, h2]
  · simp [updateTransformation, tablePut, h3]
  · simp [updatePipelineRun, tablePut, h4]

/-- Witness for C9: upserting fresh rows into the empty store. -/
theorem C9_update_operations_witness :
    (updateRecording none { db := emptyDb, recordings := [] } recA).2.db.recordings = [recA] ∧
    (updatePipeline none emptyDb samplePipeline).2.pipelines = [samplePipeline] := by
  have h :=
    C9_update_operations_are_upserts { db := emptyDb, recordings := [] } emptyDb recA
      samplePipeline (mkTransformation "t1") (newPipelineRun "run1" 100 samplePipeline recA)
      (by decide) (by decide) (by decide) (by decide)
  refine ⟨h.2.1, ?_⟩
  rw [h.2.2.1]
  rfl

/-- Claim C6: `getPipelineRunsByRecording` returns a success outcome holding
exactly the stored runs whose `recordingId` equals the recording's id (a
permutation of that filter), ordered most-recent-first by `startedAt`. -/
theorem C6_runs_by_recording_most_recent_first (db : Db) (rec : Recording) :
    ∃ out : List PipelineRun,
      getPipelineRunsByRecording db rec = DbResult.ok out ∧
      out.Perm (db.pipelineRuns.filter (fun q => q.recordingId == rec.id)) ∧
      List.Sorted startedAtGe out := by
  refine ⟨_, rfl, List.perm_insertionSort _ _, List.sorted_insertionSort _ _⟩

/-- Filtering a concatenation by "id not among the ids of the first part"
keeps exactly the second part, when ids are globally unique. -/
theorem filter_keep_drop (t d : List Recording)
    (hnd : (((t ++ d)).map Recording.id).Nodup) :
    (t ++ d).filter (fun r => !((t.map Recording.id).contains r.id)) = d := by
  have hdisj : (t.map Recording.id).Disjoint (d.map Recording.id) := by
    apply List.disjoint_of_nodup_append
    rw [← List.map_append]
    exact hnd
  rw [List.filter_append]
  have htake : t.filter (fun r => !((t.map Recording.id).contains r.id)) = [] := by
    rw [List.filter_eq_nil_iff]
    intro r hr
    have hrid : r.id ∈ t.map Recording.id := List.mem_map_of_mem Recording.id hr
    simp [hrid]
  have hdrop : d.filter (fun r => !((t.map Recording.id).contains r.id)) = d := by
    rw [List.filter_eq_self]
    intro r hr
    have hrid : r.id ∈ d.map Recording.id := List.mem_map_of_mem Recording.id hr
    have hnotin : r.id ∉ t.map Recording.id := fun hmem => hdisj hmem hrid
    simp [hnotin]
  rw [htake, hdrop, List.nil_append]

/-- Bulk-deleting the ids of the first `k` entries of a sorted permutation of
the table removes exactly `k` rows, keeps only original rows, and every
removed row is strictly older than every kept row (given distinct ids and
distinct creation times). -/
theorem bulkDelete_oldest_general (l srt : List Recording) (k : Nat)
    (hperm : srt.Perm l) (hsorted : List.Pairwise createdAtLe srt)
    (hid : (l.map Recording.id).Nodup)
    (hct : (l.map Recording.createdAt).Nodup) :
    (tableBulkDelete Recording.id l ((srt.take k).map Recording.id)).length =
      l.length - k ∧
    (∀ r ∈ tableBulkDelete Recording.id l ((srt.take k).map Recording.id), r ∈ l) ∧
    (∀ r ∈ l, r ∉ tableBulkDelete Recording.id l ((srt.take k).map Recording.id) →
      ∀ q ∈ tableBulkDelete Recording.id l ((srt.take k).map Recording.id),
        r.createdAt < q.createdAt) := by
  have hsrtid : (srt.map Recording.id).Nodup := ((hperm.map Recording.id).symm).nodup hid
  have hnd2 : ((srt.take k ++ srt.drop k).map Recording.id).Nodup := by
    rw [List.take_append_drop]
    exact hsrtid
  have hkey : (srt.take k ++ srt.drop k).filter
      (fun r => !(((srt.take k).map Recording.id).contains r.id)) = srt.drop k :=
    filter_keep_drop (srt.take k) (srt.drop k) hnd2
  have hfeq : srt.filter (fun r => !(((srt.take k).map Recording.id).contains r.id)) =
      srt.drop k := by
    rw [← hkey]
    exact congrArg (List.filter _) (List.take_append_drop k srt).symm
  have hkept : (tableBulkDelete Recording.id l ((srt.take k).map Recording.id)).Perm
      (srt.drop k) := by
    have hpf := (hperm.symm).filter
      (fun r => !(((srt.take k).map Recording.id).contains r.id))
    rw [hfeq] at hpf
    exact hpf
  refine ⟨?_, ?_, ?_⟩
  · rw [hkept.length_eq, List.length_drop, hperm.length_eq]
  · intro r hr
    simp only [tableBulkDelete, List.mem_filter] at hr
    exact hr.1
  · intro r hrl hrdel q hq
    have hridin : r.id ∈ (srt.take k).map Recording.id := by
      by_contra hnot
      apply hrdel
      simp only [tableBulkDelete, List.mem_filter]
      refine ⟨hrl, ?_⟩
      cases hb : ((srt.take k).map Recording.id).contains r.id with
      | false => rfl
      | true => exact absurd (List.elem_iff.mp hb) hnot
    obtain ⟨a, ha, haid⟩ := List.mem_map.mp hridin
    have hal : a ∈ l := hperm.subset (List.mem_of_mem_take ha)
    have har : a = r := List.inj_on_of_nodup_map hid hal hrl haid
    have hrtake : r ∈ srt.take k := har ▸ ha
    have hqdrop : q ∈ srt.drop k := hkept.subset hq
    have hql : q ∈ l := by
      simp only [tableBulkDelete, List.mem_filter] at hq
      exact hq.1
    have hpairs : List.Pairwise createdAtLe (srt.take k ++ srt.drop k) := by
      rw [List.take_append_drop]
      exact hsorted
    have hle : createdAtLe r q := (List.pairwise_append.mp hpairs).2.2 r hrtake q hqdrop
    have hne : r.createdAt ≠ q.createdAt := by
      intro heq
      have hrq : r = q := List.inj_on_of_nodup_map hct hrl hql heq
      rw [hrq] at hrdel
      exact hrdel hq
    exact Nat.lt_of_le_of_ne hle hne

/-- With at most `maxCount` recordings present, `limit-count` cleanup is
a no-op returning success. -/
theorem cleanup_noop_of_le (n : Nat) (db : Db) (h : db.recordings.length ≤ n) :
    cleanupExpiredRecordings (limitCountSettings n) db = (DbResult.ok (), db) := by
  have hform : cleanupExpiredRecordings (limitCountSettings n) db =
      (if db.recordings.length = 0 then (DbResult.ok (), db)
       else if db.recordings.length ≤ n then (DbResult.ok (), db)
       else (DbResult.ok (), limitCountDelete n db)) := rfl
  rw [hform]
  by_cases h0 : db.recordings.length = 0
  · rw [if_pos h0]
  · rw [if_neg h0, if_pos h]

/-- Claim C3: `cleanupExpiredRecordings` with `keep-forever` deletes nothing;
with `limit-count` and max `n` it is a no-op on a store with at most `n`
recordings; on a store with more than `n` recordings with distinct ids and
distinct creation times it returns success, keeps exactly `n` rows, keeps
only original rows, deletes only rows strictly older than every kept row
(i.e. exactly the excess oldest by creation time), and a repeated invocation
immediately afterwards is a no-op. -/
theorem C3_cleanup_retention (n : Nat) (db0 dbSmall dbBig : Db)
    (hsmall : dbSmall.recordings.length ≤ n)
    (hbig : n < dbBig.recordings.length)
    (hid : (dbBig.recordings.map Recording.id).Nodup)
    (hct : (dbBig.recordings.map Recording.createdAt).Nodup) :
    cleanupExpiredRecordings (keepForeverSettings n) db0 = (DbResult.ok (), db0) ∧
    cleanupExpiredRecordings (limitCountSettings n) dbSmall = (DbResult.ok (), dbSmall) ∧
    (cleanupExpiredRecordings (limitCountSettings n) dbBig).1 = DbResult.ok () ∧
    (cleanupExpiredRecordings (limitCountSettings n) dbBig).2.recordings.length = n ∧
    (∀ r ∈ (cleanupExpiredRecordings (limitCountSettings n) dbBig).2.recordings,
      r ∈ dbBig.recordings) ∧
    (∀ r ∈ dbBig.recordings,
      r ∉ (cleanupExpiredRecordings (limitCountSettings n) dbBig).2.recordings →
      ∀ q ∈ (cleanupExpiredRecordings (limitCountSettings n) dbBig).2.recordings,
        r.createdAt < q.createdAt) ∧
    cleanupExpiredRecordings (limitCountSettings n)
        (cleanupExpiredRecordings (limitCountSettings n) dbBig).2 =
      (DbResult.ok (), (cleanupExpiredRecordings (limitCountSettings n) dbBig).2) := by
  have hM0 : ¬ (dbBig.recordings.length = 0) := by omega
  have hMn : ¬ (dbBig.recordings.length ≤ n) := by omega
  have hbigform : cleanupExpiredRecordings (limitCountSettings n) dbBig =
      (DbResult.ok (), limitCountDelete n dbBig) := by
    have hform : cleanupExpiredRecordings (limitCountSettings n) dbBig =
        (if dbBig.recordings.length = 0 then (DbResult.ok (), dbBig)
         else if dbBig.recordings.length ≤ n then (DbResult.ok (), dbBig)
         else (DbResult.ok (), limitCountDelete n dbBig)) := rfl
    rw [hform, if_neg hM0, if_neg hMn]
  obtain ⟨hlen, hsub, hold⟩ :=
    bulkDelete_oldest_general dbBig.recordings
      (List.insertionSort createdAtLe dbBig.recordings) (dbBig.recordings.length - n)
      (List.perm_insertionSort _ _) (List.sorted_insertionSort _ _) hid hct
  have hlen2 :
      (cleanupExpiredRecordings (limitCountSettings n) dbBig).2.recordings.length = n := by
    rw [hbigform]
    show (tableBulkDelete Recording.id dbBig.recordings
        (((List.insertionSort createdAtLe dbBig.recordings).take
            (dbBig.recordings.length - n)).map Recording.id)).length = n
    rw [hlen]
    omega
  refine ⟨rfl, cleanup_noop_of_le n dbSmall hsmall, ?_, hlen2, ?_, ?_, ?_⟩
  · rw [hbigform]
  · intro r hr
    rw [hbigform] at hr
    exact hsub r hr
  · intro r hrl hrdel q hq
    rw [hbigform] at hrdel hq
    exact hold r hrl hrdel q hq
  · exact cleanup_noop_of_le n _ (Nat.le_of_eq hlen2)

/-- Witness for C3 at a concrete store of three recordings with max count 1. -/
theorem C3_cleanup_retention_witness :
    cleanupExpiredRecordings (keepForeverSettings 1) sampleDb = (DbResult.ok (), sampleDb) ∧
    cleanupExpiredRecordings (limitCountSettings 1) smallDb = (DbResult.ok (), smallDb) ∧
    (cleanupExpiredRecordings (limitCountSettings 1) sampleDb).1 = DbResult.ok () ∧
    (cleanupExpiredRecordings (limitCountSettings 1) sampleDb).2.recordings.length = 1 := by
  have h :=
    C3_cleanup_retention 1 sampleDb smallDb sampleDb (by decide) (by decide) (by decide)
      (by decide)
  exact ⟨h.1, h.2.1, h.2.2.1, h.2.2.2.1⟩

end WhisperingX
